import Mathlib

/-!
Shallow embedding of the joke-chatbot session core (src/app.py) and proofs of
its specified properties.

Modelling conventions:
- A Python dict message {"role": r, "content": c} is the structure Message.
- Streamlit session state (st.session_state.messages, st.session_state.pending_user)
  is the structure SessionState, threaded explicitly.
- The OpenAI client is modelled as a pure function from the completion request
  (model, messages, temperature, max_tokens, presence_penalty, frequency_penalty)
  to either a transport/API failure (Except.error) or a ChatResponse.
- Python exceptions escaping a function are modelled as an explicit
  Option ProviderError / Except ProviderError component of the result; state
  mutations performed before the raise are retained in the returned state,
  matching Python semantics where the ambient session state survives the raise.
- Outbound network side effects are made observable as an explicit trace:
  each function that can issue completion calls also returns the list of
  CompletionRequest values it sent, in order.
- Python floats (temperature, penalties) are modelled as rationals; no float
  arithmetic is ever performed by the code, the values are only passed through.
- Python str.strip() is modelled by the executable function strip below
  (drop whitespace characters at both ends).
-/

structure Message where
  role : String
  content : String
deriving DecidableEq, Repr

/-- st.session_state after init_state (app.py lines 10-14): the ordered
conversation history and the optional pending quick-suggestion prompt. -/
structure SessionState where
  messages : List Message
  pending_user : Option String
deriving DecidableEq, Repr

/-- init_state (app.py lines 10-14): both slots start empty. -/
def init_state : SessionState := { messages := [], pending_user := none }

/-- build_system_prompt (app.py lines 17-34), transcribed literally. -/
def build_system_prompt (style : String) (safety : String) (audience : String)
    (length : String) : String :=
  "You are JesterBot, a friendly, quick-witted joke-telling assistant.\n\n"
  ++ "Goals:\n"
  ++ "- Craft original jokes tailored to the user\x27s request.\n"
  ++ ("- Style: " ++ style ++ "\n")
  ++ ("- Safety/Tone: " ++ safety ++ "\n")
  ++ ("- Audience: " ++ audience ++ "\n")
  ++ ("- Length: " ++ length ++ "\n\n")
  ++ "Guidelines:\n"
  ++ "- Deliver the joke directly (avoid meta prefaces like \x27Here is a joke:\x27).\n"
  ++ "- Keep it concise unless asked for more.\n"
  ++ "- Avoid offensive content, slurs, hate speech, or punching down.\n"
  ++ "- If requested content conflicts with the safety level, decline briefly and offer a cleaner alternative.\n"
  ++ "- Prefer clear line breaks where helpful; default to a single joke unless asked for multiple.\n"
  ++ "- If asked to explain, provide a brief explanation after the joke.\n"
  ++ "- If no topic is given, pick a playful everyday theme.\n"

/-- build_messages (app.py lines 37-38): a fresh list consisting of one system
message followed by the history. -/
def build_messages (system_prompt : String) (history : List Message) : List Message :=
  [{ role := "system", content := system_prompt }] ++ history

/-- One choice of a chat-completion response; content is Optional because the
provider may return a null message content. -/
structure ChatChoice where
  content : Option String
deriving DecidableEq, Repr

/-- The shape of the provider response that generate_reply consumes:
response.choices, each carrying choices[i].message.content. -/
structure ChatResponse where
  choices : List ChatChoice
deriving DecidableEq, Repr

/-- The parameters of one outbound call to client.chat.completions.create
(app.py lines 53-60). -/
structure CompletionRequest where
  model : String
  messages : List Message
  temperature : ℚ
  max_tokens : ℕ
  presence_penalty : ℚ
  frequency_penalty : ℚ
deriving DecidableEq, Repr

/-- The provider client: a single outbound call, which either fails at the
transport/API level (auth, rate limit, network, malformed wire response),
carried as Except.error with a diagnostic string, or returns a ChatResponse. -/
def Client : Type := CompletionRequest → Except String ChatResponse

/-- The single error kind of this core, ProviderError: the abstraction of any
exception escaping generate_reply. apiFailure covers exceptions raised by the
client call itself; noChoices models the IndexError from response.choices[0]
on an empty choices list; nullContent models the AttributeError from calling
.strip() on a None content. -/
inductive ProviderError where
  | apiFailure (diagnostic : String)
  | noChoices
  | nullContent
deriving DecidableEq, Repr

/-- Python str.strip() with no argument: remove whitespace from both ends
of the string. -/
def strip (s : String) : String :=
  ⟨(((s.data.dropWhile Char.isWhitespace).reverse.dropWhile Char.isWhitespace).reverse)⟩

/-- generate_reply (app.py lines 46-61). Issues exactly one completion call
with the temperature and max_tokens given by the caller and the fixed penalties 0.3 and
0.2, and returns the stripped content of the first choice. The second
component is the trace of outbound requests issued. -/
def generate_reply (client : Client) (model : String) (messages : List Message)
    (temperature : ℚ) (max_tokens : ℕ) :
    Except ProviderError String × List CompletionRequest :=
  let req : CompletionRequest :=
    ⟨model, messages, temperature, max_tokens, 3/10, 2/10⟩
  (match client req with
   | .error diagnostic => .error (.apiFailure diagnostic)
   | .ok response =>
     match response.choices with
     | [] => .error .noChoices
     | choice :: _ =>
       match choice.content with
       | none => .error .nullContent
       | some s => .ok (strip s),
   [req])

/-- add_message (app.py lines 64-65). -/
def add_message (role : String) (content : String) (st : SessionState) : SessionState :=
  { st with messages := st.messages ++ [{ role := role, content := content }] }

/-- clear_chat (app.py lines 68-69). -/
def clear_chat (st : SessionState) : SessionState :=
  { st with messages := [] }

/-- The pending-prompt set action (app.py lines 154, 171, 174, 177, 180):
st.session_state.pending_user = text. -/
def set_pending (text : String) (st : SessionState) : SessionState :=
  { st with pending_user := some text }

/-- send_user_message (app.py lines 72-84). Empty text is a no-op. Otherwise
the user message is appended first; if generate_reply fails, the exception
propagates (second component some e) with the user message retained and no
assistant message appended; on success the assistant message is appended.
Third component: the trace of outbound completion requests. -/
def send_user_message (text : String) (client : Client) (model : String)
    (system_prompt : String) (temperature : ℚ) (max_tokens : ℕ)
    (st : SessionState) :
    SessionState × Option ProviderError × List CompletionRequest :=
  if text = "" then (st, none, [])
  else
    let st1 := add_message "user" text st
    let r := generate_reply client model (build_messages system_prompt st1.messages)
      temperature max_tokens
    match r.1 with
    | .error e => (st1, some e, r.2)
    | .ok reply => (add_message "assistant" reply st1, none, r.2)

/-- The sidebar Configuration Selection of one script run (app.py lines
100-144): the five enumerated choices plus the two sliders. -/
structure Selection where
  model : String
  style : String
  safety : String
  audience : String
  length : String
  temperature : ℚ
  max_tokens : ℕ
deriving DecidableEq, Repr

/-- One chat-input turn of main (app.py lines 159 and 183-185): the system
prompt is recomputed from the current Selection, then send_user_message runs. -/
def run_turn (sel : Selection) (client : Client) (text : String)
    (st : SessionState) :
    SessionState × Option ProviderError × List CompletionRequest :=
  let system_prompt := build_system_prompt sel.style sel.safety sel.audience sel.length
  send_user_message text client sel.model system_prompt sel.temperature
    sel.max_tokens st

/-- The pending-prompt handling of one script run of main (app.py lines 159
and 188-190): if pending_user is truthy, send it as a user message, and only
after send_user_message returns normally set pending_user to None. If
send_user_message raises, the script run aborts before line 190, so the slot
is left set (state reached so far is retained). -/
def handle_pending (sel : Selection) (client : Client) (st : SessionState) :
    SessionState × Option ProviderError × List CompletionRequest :=
  let system_prompt := build_system_prompt sel.style sel.safety sel.audience sel.length
  match st.pending_user with
  | none => (st, none, [])
  | some p =>
    if p = "" then (st, none, [])
    else
      let r := send_user_message p client sel.model system_prompt
        sel.temperature sel.max_tokens st
      match r.2.1 with
      | some e => (r.1, some e, r.2.2)
      | none => ({ r.1 with pending_user := none }, none, r.2.2)

/-- A provider response has usable content when it has a first choice whose
message content is present (non-null); exactly the data generate_reply reads
at app.py line 61. -/
def has_usable_content (response : ChatResponse) : Prop :=
  ∃ choice s, response.choices.head? = some choice ∧ choice.content = some s

/-! ## Helper lemmas -/

theorem generate_reply_trace (client : Client) (model : String) (msgs : List Message)
    (temperature : ℚ) (max_tokens : ℕ) :
    (generate_reply client model msgs temperature max_tokens).2
      = [⟨model, msgs, temperature, max_tokens, 3/10, 2/10⟩] := rfl

theorem send_user_message_of_error (text : String) (client : Client) (model : String)
    (system_prompt : String) (temperature : ℚ) (max_tokens : ℕ) (st : SessionState)
    (h : ¬ text = "") (e : ProviderError)
    (hgr : (generate_reply client model
        (build_messages system_prompt (add_message "user" text st).messages)
        temperature max_tokens).1 = .error e) :
    send_user_message text client model system_prompt temperature max_tokens st
      = (add_message "user" text st, some e,
         [⟨model, build_messages system_prompt (add_message "user" text st).messages,
           temperature, max_tokens, 3/10, 2/10⟩]) := by
  simp only [send_user_message, if_neg h, hgr, generate_reply_trace]

theorem send_user_message_of_ok (text : String) (client : Client) (model : String)
    (system_prompt : String) (temperature : ℚ) (max_tokens : ℕ) (st : SessionState)
    (h : ¬ text = "") (reply : String)
    (hgr : (generate_reply client model
        (build_messages system_prompt (add_message "user" text st).messages)
        temperature max_tokens).1 = .ok reply) :
    send_user_message text client model system_prompt temperature max_tokens st
      = (add_message "assistant" reply (add_message "user" text st), none,
         [⟨model, build_messages system_prompt (add_message "user" text st).messages,
           temperature, max_tokens, 3/10, 2/10⟩]) := by
  simp only [send_user_message, if_neg h, hgr, generate_reply_trace]

theorem send_user_message_trace_eq (text : String) (client : Client) (model : String)
    (system_prompt : String) (temperature : ℚ) (max_tokens : ℕ) (st : SessionState)
    (h : ¬ text = "") :
    (send_user_message text client model system_prompt temperature max_tokens st).2.2
      = [⟨model, build_messages system_prompt (add_message "user" text st).messages,
          temperature, max_tokens, 3/10, 2/10⟩] := by
  cases hgr : (generate_reply client model
      (build_messages system_prompt (add_message "user" text st).messages)
      temperature max_tokens).1 with
  | error e => rw [send_user_message_of_error text client model system_prompt
      temperature max_tokens st h e hgr]
  | ok reply => rw [send_user_message_of_ok text client model system_prompt
      temperature max_tokens st h reply hgr]

theorem send_user_message_pending_unchanged (text : String) (client : Client)
    (model : String) (system_prompt : String) (temperature : ℚ) (max_tokens : ℕ)
    (st : SessionState) :
    (send_user_message text client model system_prompt temperature max_tokens st).1.pending_user
      = st.pending_user := by
  by_cases h : text = ""
  · simp [send_user_message, h]
  · cases hgr : (generate_reply client model
        (build_messages system_prompt (add_message "user" text st).messages)
        temperature max_tokens).1 with
    | error e => rw [send_user_message_of_error text client model system_prompt
        temperature max_tokens st h e hgr]; rfl
    | ok reply => rw [send_user_message_of_ok text client model system_prompt
        temperature max_tokens st h reply hgr]; rfl

theorem send_user_message_roles (text : String) (client : Client) (model : String)
    (system_prompt : String) (temperature : ℚ) (max_tokens : ℕ) (st : SessionState)
    (hroles : ∀ m ∈ st.messages, m.role = "user" ∨ m.role = "assistant") :
    ∀ m ∈ (send_user_message text client model system_prompt temperature max_tokens st).1.messages,
      m.role = "user" ∨ m.role = "assistant" := by
  by_cases h : text = ""
  · simpa [send_user_message, h] using hroles
  · cases hgr : (generate_reply client model
        (build_messages system_prompt (add_message "user" text st).messages)
        temperature max_tokens).1 with
    | error e =>
      rw [send_user_message_of_error text client model system_prompt
        temperature max_tokens st h e hgr]
      intro m hm
      simp only [add_message, List.mem_append, List.mem_singleton] at hm
      rcases hm with hm | hm
      · exact hroles m hm
      · subst hm; exact Or.inl rfl
    | ok reply =>
      rw [send_user_message_of_ok text client model system_prompt
        temperature max_tokens st h reply hgr]
      intro m hm
      simp only [add_message, List.mem_append, List.mem_singleton] at hm
      rcases hm with (hm | hm) | hm
      · exact hroles m hm
      · subst hm; exact Or.inl rfl
      · subst hm; exact Or.inr rfl

/-! ## Theorems -/

/-- C3: build_messages p h returns a new sequence of length len(h)+1 whose
element 0 is a system message with content p and whose elements 1..n are
exactly the elements of h in order; the input history is untouched (the tail
of the result is the very list h). -/
theorem build_messages_spec (p : String) (h : List Message) :
    (build_messages p h).length = h.length + 1 ∧
    (build_messages p h).head? = some { role := "system", content := p } ∧
    (build_messages p h).tail = h ∧
    ∀ i : ℕ, (build_messages p h)[i + 1]? = h[i]? := by
  refine ⟨by simp [build_messages], rfl, rfl, ?_⟩
  intro i
  simp [build_messages]

/-- C8: empty input text makes send_user_message a no-op: the session state is
returned unchanged and the trace of outbound completion calls is empty. -/
theorem send_user_message_empty_noop (client : Client) (model : String)
    (system_prompt : String) (temperature : ℚ) (max_tokens : ℕ)
    (st : SessionState) :
    send_user_message "" client model system_prompt temperature max_tokens st
      = (st, none, []) := by
  simp [send_user_message]

/-- C10: after clear_chat the history is empty regardless of prior content,
and nothing else changes: in particular the pending prompt slot is untouched,
so a pending quick-suggestion set before the clear is still pending after. -/
theorem clear_chat_spec (st : SessionState) :
    (clear_chat st).messages = [] ∧
    (clear_chat st).pending_user = st.pending_user ∧
    ∀ text : String, (clear_chat (set_pending text st)).pending_user = some text := by
  exact ⟨rfl, rfl, fun _ => rfl⟩

/-- C6: build_system_prompt is a pure, deterministic, total function of its
four arguments alone: for every choice of style, safety, audience and length
(in particular every combination of the enumerated sidebar option values) the
output is a fixed template embedding the literal text of each of the four
selected values, so it cannot depend on conversation history or any external
state. -/
theorem build_system_prompt_embeds_options :
    ∃ p₀ p₁ p₂ p₃ p₄ : String,
      ∀ style safety audience length : String,
        build_system_prompt style safety audience length
          = p₀ ++ style ++ p₁ ++ safety ++ p₂ ++ audience ++ p₃ ++ length ++ p₄ := by
  refine ⟨"You are JesterBot, a friendly, quick-witted joke-telling assistant.\n\n"
      ++ "Goals:\n"
      ++ "- Craft original jokes tailored to the user\x27s request.\n"
      ++ "- Style: ",
    "\n" ++ "- Safety/Tone: ",
    "\n" ++ "- Audience: ",
    "\n" ++ "- Length: ",
    "\n\n"
      ++ "Guidelines:\n"
      ++ "- Deliver the joke directly (avoid meta prefaces like \x27Here is a joke:\x27).\n"
      ++ "- Keep it concise unless asked for more.\n"
      ++ "- Avoid offensive content, slurs, hate speech, or punching down.\n"
      ++ "- If requested content conflicts with the safety level, decline briefly and offer a cleaner alternative.\n"
      ++ "- Prefer clear line breaks where helpful; default to a single joke unless asked for multiple.\n"
      ++ "- If asked to explain, provide a brief explanation after the joke.\n"
      ++ "- If no topic is given, pick a playful everyday theme.\n", ?_⟩
  intro style safety audience length
  simp only [build_system_prompt, String.append_assoc]

/-- C9: every completion call issued by generate_reply, and hence every
completion call issued during a turn by send_user_message, carries the
temperature and max_tokens of the caller unchanged together with the two
fixed non-configurable penalties: presence penalty 0.3 and frequency
penalty 0.2. -/
theorem completion_call_fixed_penalties (client : Client) (model : String)
    (system_prompt : String) (msgs : List Message) (temperature : ℚ)
    (max_tokens : ℕ) (text : String) (st : SessionState) :
    (∀ req ∈ (generate_reply client model msgs temperature max_tokens).2,
        req.temperature = temperature ∧ req.max_tokens = max_tokens ∧
        req.presence_penalty = 3/10 ∧ req.frequency_penalty = 2/10) ∧
    (∀ req ∈ (send_user_message text client model system_prompt temperature max_tokens st).2.2,
        req.temperature = temperature ∧ req.max_tokens = max_tokens ∧
        req.presence_penalty = 3/10 ∧ req.frequency_penalty = 2/10) := by
  constructor
  · intro req hreq
    rw [generate_reply_trace, List.mem_singleton] at hreq
    subst hreq
    exact ⟨rfl, rfl, rfl, rfl⟩
  · intro req hreq
    by_cases h : text = ""
    · subst h
      rw [send_user_message_empty_noop] at hreq
      simp at hreq
    · rw [send_user_message_trace_eq text client model system_prompt
        temperature max_tokens st h, List.mem_singleton] at hreq
      subst hreq
      exact ⟨rfl, rfl, rfl, rfl⟩

/-- C9 witness: the single request of a concrete generate_reply call carries
temperature 4/5, max_tokens 200 and the fixed penalties 3/10 and 2/10. -/
theorem completion_call_fixed_penalties_witness :
    (⟨"gpt-4", [], 4/5, 200, 3/10, 2/10⟩ : CompletionRequest).temperature = 4/5 ∧
    (⟨"gpt-4", [], 4/5, 200, 3/10, 2/10⟩ : CompletionRequest).max_tokens = 200 ∧
    (⟨"gpt-4", [], 4/5, 200, 3/10, 2/10⟩ : CompletionRequest).presence_penalty = 3/10 ∧
    (⟨"gpt-4", [], 4/5, 200, 3/10, 2/10⟩ : CompletionRequest).frequency_penalty = 2/10 :=
  (completion_call_fixed_penalties (fun _ => .error "down") "gpt-4" "sp" [] (4/5) 200
      "hi" init_state).1 ⟨"gpt-4", [], 4/5, 200, 3/10, 2/10⟩
    (by rw [generate_reply_trace]; exact List.mem_singleton.mpr rfl)

/-- C1: when the completion call raised by a turn fails, send_user_message
leaves the history holding exactly the just-appended user message on top of
the prior history, appends no assistant message, leaves the rest of the
session state untouched, and surfaces the provider error to the caller as a
value at the turn boundary (exceptions are explicit values in this embedding,
so none can escape unhandled); the session stays usable: a subsequent
successful turn on the resulting state appends its user and assistant
messages normally. -/
theorem send_user_message_provider_failure (st : SessionState) (client : Client)
    (model : String) (system_prompt : String) (temperature : ℚ) (max_tokens : ℕ)
    (text : String) (diagnostic : String) (htext : ¬ text = "")
    (hfail : ∀ req, client req = .error diagnostic) :
    (send_user_message text client model system_prompt temperature max_tokens st).1.messages
        = st.messages ++ [{ role := "user", content := text }] ∧
    (send_user_message text client model system_prompt temperature max_tokens st).1.pending_user
        = st.pending_user ∧
    (send_user_message text client model system_prompt temperature max_tokens st).2.1
        = some (ProviderError.apiFailure diagnostic) ∧
    ∀ (client2 : Client) (text2 reply : String), ¬ text2 = "" →
      (∀ req, client2 req = .ok { choices := [{ content := some reply }] }) →
      (send_user_message text2 client2 model system_prompt temperature max_tokens
          (send_user_message text client model system_prompt temperature max_tokens st).1).1.messages
        = st.messages ++ [{ role := "user", content := text },
            { role := "user", content := text2 },
            { role := "assistant", content := strip reply }] := by
  have hgr : (generate_reply client model
      (build_messages system_prompt (add_message "user" text st).messages)
      temperature max_tokens).1 = .error (.apiFailure diagnostic) := by
    simp [generate_reply, hfail]
  rw [send_user_message_of_error text client model system_prompt temperature
    max_tokens st htext _ hgr]
  refine ⟨rfl, rfl, rfl, ?_⟩
  intro client2 text2 reply h2 hok
  have hgr2 : (generate_reply client2 model
      (build_messages system_prompt
        (add_message "user" text2 (add_message "user" text st)).messages)
      temperature max_tokens).1 = .ok (strip reply) := by
    simp [generate_reply, hok]
  rw [send_user_message_of_ok text2 client2 model system_prompt temperature
    max_tokens _ h2 _ hgr2]
  simp [add_message]

/-- C1 witness: a failing turn from the empty session keeps exactly the user
message, and a later successful turn on the resulting state works normally. -/
theorem send_user_message_provider_failure_witness :
    (send_user_message "Tell me a joke." (fun _ => .error "rate limited") "gpt-4" "sp"
        (4/5) 200 init_state).1.messages
      = [{ role := "user", content := "Tell me a joke." }] ∧
    (send_user_message "Another one." (fun _ => .ok { choices := [{ content := some "Ha!" }] })
        "gpt-4" "sp" (4/5) 200
        (send_user_message "Tell me a joke." (fun _ => .error "rate limited") "gpt-4" "sp"
          (4/5) 200 init_state).1).1.messages
      = [{ role := "user", content := "Tell me a joke." },
         { role := "user", content := "Another one." },
         { role := "assistant", content := strip "Ha!" }] := by
  have h := send_user_message_provider_failure init_state (fun _ => .error "rate limited")
    "gpt-4" "sp" (4/5) 200 "Tell me a joke." "rate limited" (by decide) (fun _ => rfl)
  refine ⟨?_, ?_⟩
  · rw [h.1]; rfl
  · rw [h.2.2.2 (fun _ => .ok { choices := [{ content := some "Ha!" }] })
      "Another one." "Ha!" (by decide) (fun _ => rfl)]
    rfl

/-- C7: starting from the empty history, a successful turn with the user text
"Tell a clean one-liner about programmers." leaves the history equal to
exactly two messages: that user message followed by one assistant message
whose content is non-empty text. -/
theorem successful_turn_from_empty_history (client : Client) (model : String)
    (system_prompt : String) (temperature : ℚ) (max_tokens : ℕ) (reply : String)
    (hok : ∀ req, client req = .ok { choices := [{ content := some reply }] })
    (hne : ¬ strip reply = "") :
    (send_user_message "Tell a clean one-liner about programmers." client model
        system_prompt temperature max_tokens init_state).1.messages
      = [{ role := "user", content := "Tell a clean one-liner about programmers." },
         { role := "assistant", content := strip reply }] ∧
    ¬ strip reply = "" := by
  have hgr : (generate_reply client model
      (build_messages system_prompt
        (add_message "user" "Tell a clean one-liner about programmers." init_state).messages)
      temperature max_tokens).1 = .ok (strip reply) := by
    simp [generate_reply, hok]
  rw [send_user_message_of_ok _ client model system_prompt temperature max_tokens
    init_state (by decide) _ hgr]
  exact ⟨rfl, hne⟩

/-- C7 witness: the scenario at a concrete provider reply. -/
theorem successful_turn_from_empty_history_witness :
    (send_user_message "Tell a clean one-liner about programmers."
        (fun _ => .ok { choices := [{ content := some "Programmers prefer dark mode because light attracts bugs." }] })
        "gpt-4" "sp" (4/5) 200 init_state).1.messages
      = [{ role := "user", content := "Tell a clean one-liner about programmers." },
         { role := "assistant",
           content := strip "Programmers prefer dark mode because light attracts bugs." }] ∧
    ¬ strip "Programmers prefer dark mode because light attracts bugs." = "" :=
  successful_turn_from_empty_history
    (fun _ => .ok { choices := [{ content := some "Programmers prefer dark mode because light attracts bugs." }] })
    "gpt-4" "sp" (4/5) 200 "Programmers prefer dark mode because light attracts bugs."
    (fun _ => rfl) (by decide)

theorem send_user_message_trace_head (text : String) (client : Client) (model : String)
    (system_prompt : String) (temperature : ℚ) (max_tokens : ℕ) (st : SessionState) :
    ∀ req ∈ (send_user_message text client model system_prompt temperature max_tokens st).2.2,
      req.messages.head? = some { role := "system", content := system_prompt } := by
  intro req hreq
  by_cases h : text = ""
  · subst h
    rw [send_user_message_empty_noop] at hreq
    simp at hreq
  · rw [send_user_message_trace_eq text client model system_prompt temperature
      max_tokens st h, List.mem_singleton] at hreq
    subst hreq
    rfl

theorem handle_pending_none (sel : Selection) (client : Client) (st : SessionState)
    (h : st.pending_user = none) :
    handle_pending sel client st = (st, none, []) := by
  simp [handle_pending, h]

theorem handle_pending_of_error (sel : Selection) (client : Client) (st : SessionState)
    (p : String) (hp : st.pending_user = some p) (hne : ¬ p = "") (e : ProviderError)
    (hsr : (send_user_message p client sel.model
        (build_system_prompt sel.style sel.safety sel.audience sel.length)
        sel.temperature sel.max_tokens st).2.1 = some e) :
    handle_pending sel client st
      = ((send_user_message p client sel.model
            (build_system_prompt sel.style sel.safety sel.audience sel.length)
            sel.temperature sel.max_tokens st).1, some e,
         (send_user_message p client sel.model
            (build_system_prompt sel.style sel.safety sel.audience sel.length)
            sel.temperature sel.max_tokens st).2.2) := by
  simp only [handle_pending, hp, if_neg hne, hsr]

theorem handle_pending_of_ok (sel : Selection) (client : Client) (st : SessionState)
    (p : String) (hp : st.pending_user = some p) (hne : ¬ p = "")
    (hsr : (send_user_message p client sel.model
        (build_system_prompt sel.style sel.safety sel.audience sel.length)
        sel.temperature sel.max_tokens st).2.1 = none) :
    handle_pending sel client st
      = ({ (send_user_message p client sel.model
              (build_system_prompt sel.style sel.safety sel.audience sel.length)
              sel.temperature sel.max_tokens st).1 with pending_user := none }, none,
         (send_user_message p client sel.model
            (build_system_prompt sel.style sel.safety sel.audience sel.length)
            sel.temperature sel.max_tokens st).2.2) := by
  simp only [handle_pending, hp, if_neg hne, hsr]

theorem handle_pending_trace_length (sel : Selection) (client : Client) (st : SessionState)
    (p : String) (hp : st.pending_user = some p) (hne : ¬ p = "") :
    (handle_pending sel client st).2.2.length = 1 := by
  cases hsr : (send_user_message p client sel.model
      (build_system_prompt sel.style sel.safety sel.audience sel.length)
      sel.temperature sel.max_tokens st).2.1 with
  | none =>
    rw [handle_pending_of_ok sel client st p hp hne hsr]
    simp [send_user_message_trace_eq p client sel.model
      (build_system_prompt sel.style sel.safety sel.audience sel.length)
      sel.temperature sel.max_tokens st hne]
  | some e =>
    rw [handle_pending_of_error sel client st p hp hne e hsr]
    simp [send_user_message_trace_eq p client sel.model
      (build_system_prompt sel.style sel.safety sel.audience sel.length)
      sel.temperature sel.max_tokens st hne]

/-- C4: generate_reply returns the generated text (the stripped content of
the first choice) on success, and fails with a ProviderError exactly when the
upstream call fails (authentication, rate limit, network and malformed wire
responses are all modelled as the Except.error outcome of the client) or the
upstream response contains no usable content (no first choice, or a null
message content). -/
theorem generate_reply_spec (client : Client) (model : String)
    (msgs : List Message) (temperature : ℚ) (max_tokens : ℕ) :
    ((∃ e, (generate_reply client model msgs temperature max_tokens).1 = .error e)
      ↔ ((∃ d, client ⟨model, msgs, temperature, max_tokens, 3/10, 2/10⟩ = .error d)
        ∨ (∃ response, client ⟨model, msgs, temperature, max_tokens, 3/10, 2/10⟩ = .ok response
            ∧ ¬ has_usable_content response))) ∧
    (∀ response choice s,
      client ⟨model, msgs, temperature, max_tokens, 3/10, 2/10⟩ = .ok response →
      response.choices.head? = some choice → choice.content = some s →
      (generate_reply client model msgs temperature max_tokens).1 = .ok (strip s)) := by
  cases hc : client ⟨model, msgs, temperature, max_tokens, 3/10, 2/10⟩ with
  | error d =>
    have hval : (generate_reply client model msgs temperature max_tokens).1
        = .error (.apiFailure d) := by simp [generate_reply, hc]
    refine ⟨⟨fun _ => Or.inl ⟨d, rfl⟩, fun _ => ⟨_, hval⟩⟩, ?_⟩
    intro response choice s h1 h2 h3
    exact absurd h1 (by simp)
  | ok response =>
    obtain ⟨choices⟩ := response
    cases choices with
    | nil =>
      have hval : (generate_reply client model msgs temperature max_tokens).1
          = .error .noChoices := by simp [generate_reply, hc]
      refine ⟨⟨fun _ => Or.inr ⟨⟨[]⟩, rfl, by simp [has_usable_content]⟩,
        fun _ => ⟨_, hval⟩⟩, ?_⟩
      intro r c s h1 h2 h3
      injection h1 with h1
      subst h1
      simp at h2
    | cons choice rest =>
      obtain ⟨content⟩ := choice
      cases content with
      | none =>
        have hval : (generate_reply client model msgs temperature max_tokens).1
            = .error .nullContent := by simp [generate_reply, hc]
        refine ⟨⟨fun _ => Or.inr ⟨⟨⟨none⟩ :: rest⟩, rfl, by simp [has_usable_content]⟩,
          fun _ => ⟨_, hval⟩⟩, ?_⟩
        intro r c s h1 h2 h3
        injection h1 with h1
        subst h1
        simp at h2
        subst h2
        simp at h3
      | some s0 =>
        have hval : (generate_reply client model msgs temperature max_tokens).1
            = .ok (strip s0) := by simp [generate_reply, hc]
        refine ⟨⟨?_, ?_⟩, ?_⟩
        · rintro ⟨e, he⟩
          rw [hval] at he
          exact absurd he (by simp)
        · rintro (⟨d, hd⟩ | ⟨r, hr, hnu⟩)
          · exact absurd hd (by simp)
          · injection hr with hr
            subst hr
            exact absurd ⟨⟨some s0⟩, s0, rfl, rfl⟩ hnu
        · intro r c s h1 h2 h3
          injection h1 with h1
          subst h1
          simp at h2
          subst h2
          simp at h3
          subst h3
          exact hval

/-- C4 witness: a concrete response with usable content yields the stripped
generated text. -/
theorem generate_reply_spec_witness :
    (generate_reply (fun _ => .ok { choices := [{ content := some " Ha! " }] })
        "gpt-4" [] (4/5) 200).1 = .ok (strip " Ha! ") :=
  (generate_reply_spec (fun _ => .ok { choices := [{ content := some " Ha! " }] })
      "gpt-4" [] (4/5) 200).2 { choices := [{ content := some " Ha! " }] }
    { content := some " Ha! " } " Ha! " rfl rfl rfl

theorem handle_pending_empty_string (sel : Selection) (client : Client)
    (st : SessionState) (h : st.pending_user = some "") :
    handle_pending sel client st = (st, none, []) := by
  simp [handle_pending, h]

theorem handle_pending_cases (sel : Selection) (client : Client) (st : SessionState) :
    handle_pending sel client st = (st, none, []) ∨
    (∃ p, st.pending_user = some p ∧ ¬ p = "" ∧
      (handle_pending sel client st).1.messages
        = (send_user_message p client sel.model
            (build_system_prompt sel.style sel.safety sel.audience sel.length)
            sel.temperature sel.max_tokens st).1.messages ∧
      (handle_pending sel client st).2.2
        = (send_user_message p client sel.model
            (build_system_prompt sel.style sel.safety sel.audience sel.length)
            sel.temperature sel.max_tokens st).2.2) := by
  cases hp : st.pending_user with
  | none => exact Or.inl (handle_pending_none sel client st hp)
  | some p =>
    by_cases hne : p = ""
    · subst hne
      exact Or.inl (handle_pending_empty_string sel client st hp)
    · refine Or.inr ⟨p, rfl, hne, ?_⟩
      cases hsr : (send_user_message p client sel.model
          (build_system_prompt sel.style sel.safety sel.audience sel.length)
          sel.temperature sel.max_tokens st).2.1 with
      | none =>
        rw [handle_pending_of_ok sel client st p hp hne hsr]
        exact ⟨rfl, rfl⟩
      | some e =>
        rw [handle_pending_of_error sel client st p hp hne e hsr]
        exact ⟨rfl, rfl⟩

/-- C5: every completion call issued during a turn, whether from the chat
input (run_turn) or from the pending quick-suggestion (handle_pending), has
as first element of its message list a synthesized system message whose
content is recomputed by build_system_prompt from the Selection current in
that script run; and this system message is never stored in the history: a
history holding only user and assistant messages still holds only user and
assistant messages after the turn, and the initial history does too. -/
theorem turn_system_message_invariant (sel : Selection) (client : Client)
    (text : String) (st : SessionState)
    (hroles : ∀ m ∈ st.messages, m.role = "user" ∨ m.role = "assistant") :
    (∀ req ∈ (run_turn sel client text st).2.2,
      req.messages.head?
        = some ⟨"system", build_system_prompt sel.style sel.safety sel.audience sel.length⟩) ∧
    (∀ req ∈ (handle_pending sel client st).2.2,
      req.messages.head?
        = some ⟨"system", build_system_prompt sel.style sel.safety sel.audience sel.length⟩) ∧
    (∀ m ∈ (run_turn sel client text st).1.messages,
      m.role = "user" ∨ m.role = "assistant") ∧
    (∀ m ∈ (handle_pending sel client st).1.messages,
      m.role = "user" ∨ m.role = "assistant") ∧
    (∀ m ∈ init_state.messages, m.role = "user" ∨ m.role = "assistant") := by
  refine ⟨?_, ?_, ?_, ?_, ?_⟩
  · simp only [run_turn]
    exact send_user_message_trace_head text client sel.model
      (build_system_prompt sel.style sel.safety sel.audience sel.length)
      sel.temperature sel.max_tokens st
  · rcases handle_pending_cases sel client st with h | ⟨p, hp, hne, hmsg, htr⟩
    · rw [h]
      intro req hreq
      simp at hreq
    · rw [htr]
      exact send_user_message_trace_head p client sel.model
        (build_system_prompt sel.style sel.safety sel.audience sel.length)
        sel.temperature sel.max_tokens st
  · simp only [run_turn]
    exact send_user_message_roles text client sel.model
      (build_system_prompt sel.style sel.safety sel.audience sel.length)
      sel.temperature sel.max_tokens st hroles
  · rcases handle_pending_cases sel client st with h | ⟨p, hp, hne, hmsg, htr⟩
    · rw [h]
      exact hroles
    · rw [hmsg]
      exact send_user_message_roles p client sel.model
        (build_system_prompt sel.style sel.safety sel.audience sel.length)
        sel.temperature sel.max_tokens st hroles
  · intro m hm
    simp [init_state] at hm

/-- C5 witness: the one request of a concrete turn starts with the system
message synthesized from the concrete Selection. -/
theorem turn_system_message_invariant_witness :
    (⟨"gpt-4",
      build_messages
        (build_system_prompt "One-liner" "Family-friendly" "General" "Short (1-2 lines)")
        (add_message "user" "hi" init_state).messages,
      4/5, 200, 3/10, 2/10⟩ : CompletionRequest).messages.head?
      = some ⟨"system",
          build_system_prompt "One-liner" "Family-friendly" "General" "Short (1-2 lines)"⟩ := by
  have h := turn_system_message_invariant
    ⟨"gpt-4", "One-liner", "Family-friendly", "General", "Short (1-2 lines)", 4/5, 200⟩
    (fun _ => .error "down") "hi" init_state (by simp [init_state])
  refine h.1 _ ?_
  simp only [run_turn]
  rw [send_user_message_trace_eq _ _ _ _ _ _ _ (by decide)]
  exact List.mem_singleton.mpr rfl

/-- C2 counterexample: with the pending quick-suggestion slot set and a
provider that fails, one UI refresh cycle processes the pending prompt (one
completion call issued) but does NOT reset the slot to empty, because the
reset at app.py line 190 runs only after send_user_message returns normally;
the following refresh cycle therefore takes the same value again and issues a
second completion call for it, so the prompt is not delivered exactly once
and the take is not atomic. -/
theorem pending_redelivered_after_failed_cycle :
    (handle_pending
        ⟨"gpt-4", "One-liner", "Family-friendly", "General", "Short (1-2 lines)", 4/5, 200⟩
        (fun _ => .error "rate limited")
        (set_pending "Surprise me with a fresh, original joke." init_state)).1.pending_user
      = some "Surprise me with a fresh, original joke." ∧
    (handle_pending
        ⟨"gpt-4", "One-liner", "Family-friendly", "General", "Short (1-2 lines)", 4/5, 200⟩
        (fun _ => .error "rate limited")
        (set_pending "Surprise me with a fresh, original joke." init_state)).2.2.length = 1 ∧
    (handle_pending
        ⟨"gpt-4", "One-liner", "Family-friendly", "General", "Short (1-2 lines)", 4/5, 200⟩
        (fun _ => .error "rate limited")
        (handle_pending
          ⟨"gpt-4", "One-liner", "Family-friendly", "General", "Short (1-2 lines)", 4/5, 200⟩
          (fun _ => .error "rate limited")
          (set_pending "Surprise me with a fresh, original joke." init_state)).1).2.2.length
      = 1 := by
  decide

/-- C2 corrected: one refresh cycle delivers a set, non-empty pending prompt
exactly once; when processing succeeds, the slot is reset to empty before the
cycle ends, so the next cycle takes an empty value and delivers nothing; but
when processing the pending prompt fails, the reset is never reached, the
slot keeps its value, and the next cycle delivers the same prompt again. -/
theorem handle_pending_delivery (sel : Selection) (client : Client)
    (st : SessionState) (p : String) (hp : st.pending_user = some p)
    (hne : ¬ p = "") :
    (handle_pending sel client st).2.2.length = 1 ∧
    ((handle_pending sel client st).2.1 = none →
      (handle_pending sel client st).1.pending_user = none ∧
      ∀ client2 : Client,
        handle_pending sel client2 (handle_pending sel client st).1
          = ((handle_pending sel client st).1, none, [])) ∧
    (∀ e, (handle_pending sel client st).2.1 = some e →
      (handle_pending sel client st).1.pending_user = some p ∧
      ∀ client2 : Client,
        (handle_pending sel client2 (handle_pending sel client st).1).2.2.length = 1) := by
  refine ⟨handle_pending_trace_length sel client st p hp hne, ?_, ?_⟩
  · intro hnone
    cases hsr : (send_user_message p client sel.model
        (build_system_prompt sel.style sel.safety sel.audience sel.length)
        sel.temperature sel.max_tokens st).2.1 with
    | some e =>
      rw [handle_pending_of_error sel client st p hp hne e hsr] at hnone
      simp at hnone
    | none =>
      rw [handle_pending_of_ok sel client st p hp hne hsr]
      exact ⟨rfl, fun client2 => handle_pending_none sel client2 _ rfl⟩
  · intro e he
    cases hsr : (send_user_message p client sel.model
        (build_system_prompt sel.style sel.safety sel.audience sel.length)
        sel.temperature sel.max_tokens st).2.1 with
    | none =>
      rw [handle_pending_of_ok sel client st p hp hne hsr] at he
      simp at he
    | some e2 =>
      have hpend : (send_user_message p client sel.model
          (build_system_prompt sel.style sel.safety sel.audience sel.length)
          sel.temperature sel.max_tokens st).1.pending_user = some p := by
        rw [send_user_message_pending_unchanged]
        exact hp
      rw [handle_pending_of_error sel client st p hp hne e2 hsr]
      exact ⟨hpend, fun client2 =>
        handle_pending_trace_length sel client2 _ p hpend hne⟩

/-- C2 corrected witness: a successful cycle at concrete inputs delivers the
pending prompt once, clears the slot, and the next cycle is a no-op. -/
theorem handle_pending_delivery_witness :
    (handle_pending
        ⟨"gpt-4", "Pun", "Family-friendly", "General", "Short (1-2 lines)", 4/5, 200⟩
        (fun _ => .ok { choices := [{ content := some "Ha!" }] })
        (set_pending "Make a witty pun about coffee." init_state)).2.2.length = 1 ∧
    (handle_pending
        ⟨"gpt-4", "Pun", "Family-friendly", "General", "Short (1-2 lines)", 4/5, 200⟩
        (fun _ => .ok { choices := [{ content := some "Ha!" }] })
        (set_pending "Make a witty pun about coffee." init_state)).1.pending_user = none := by
  have h := handle_pending_delivery
    ⟨"gpt-4", "Pun", "Family-friendly", "General", "Short (1-2 lines)", 4/5, 200⟩
    (fun _ => .ok { choices := [{ content := some "Ha!" }] })
    (set_pending "Make a witty pun about coffee." init_state)
    "Make a witty pun about coffee." rfl (by decide)
  have hnone : (handle_pending
      ⟨"gpt-4", "Pun", "Family-friendly", "General", "Short (1-2 lines)", 4/5, 200⟩
      (fun _ => .ok { choices := [{ content := some "Ha!" }] })
      (set_pending "Make a witty pun about coffee." init_state)).2.1 = none := by decide
  exact ⟨h.1, (h.2.1 hnone).1⟩
